import Mathlib

/-!
Shallow embedding of the quickfix bridge of the bento repository
(`internal/impl/quickfix/fixapp.go` and `internal/impl/quickfix/input.go`),
with theorems checking the specification's claims about it.

Modelling conventions:
* Go machine integers (`int`) are modelled as `Int`.
* Go byte slices are `List Nat`.
* Go `error` values are `Option Err` (`none` = nil) or `Except Err α`.
* External collaborators (the quickfix engine library, the OS file system,
  the SHA-256 primitive) are parameters gathered in an `Env` structure:
  the code under verification only threads their results around.
* A Go map that may be nil is `Option (List (κ × ν))`; assignment into a
  nil map is a runtime fault, modelled explicitly.
-/

deriving instance DecidableEq for Except

namespace Bento

abbrev Err := String
abbrev Bytes := List Nat

/-- `type fixappState string` with constants `"started"` / `"stopped"`. -/
inductive FixappState where
  | started
  | stopped
  deriving DecidableEq, Repr

/-- `type fixapp struct` (fixapp.go:50-56).  The engine pointers
`acceptor *quickfix.Acceptor` / `initiator *quickfix.Initiator` are external
engine instances; only their presence (nil or not) matters to the handle's
logic, so they are modelled as `Option Unit`. -/
structure Fixapp where
  chksum : Bytes
  acceptor : Option Unit
  initiator : Option Unit
  state : FixappState
  refcount : Int
  deriving DecidableEq, Repr

/-- Result of `fixapp.Start`: the updated handle and the returned error. -/
structure StartOutcome where
  app : Fixapp
  err : Option Err
  deriving DecidableEq, Repr

/-- `func (f *fixapp) Start() error` (fixapp.go:126-144).
`engineStartErr` is the error the external engine's own `Start` would
return if invoked (`f.acceptor.Start()` / `f.initiator.Start()`). -/
def Fixapp.Start (f : Fixapp) (engineStartErr : Option Err) : StartOutcome :=
  if f.state ≠ FixappState.started then
    let err : Option Err :=
      if f.acceptor.isSome then engineStartErr
      else if f.initiator.isSome then engineStartErr
      else some "cannot start uninitialized fixapp"
    { app := { f with state := FixappState.started, refcount := f.refcount + 1 }
      err := err }
  else
    { app := { f with refcount := f.refcount + 1 }, err := none }

/-- Result of `fixapp.Stop`: the updated handle, and whether the underlying
engine's stop operation (`acceptor.Stop()` / `initiator.Stop()`) was invoked. -/
structure StopOutcome where
  app : Fixapp
  engineStopInvoked : Bool
  deriving DecidableEq, Repr

/-- `func (f *fixapp) Stop()` (fixapp.go:146-163).  Note that the final-stop
branch clears the engine pointers but does not touch `state` or `refcount`. -/
def Fixapp.Stop (f : Fixapp) : StopOutcome :=
  if f.state = FixappState.stopped ∨ f.refcount > 1 then
    { app := { f with refcount := f.refcount - 1 }, engineStopInvoked := false }
  else
    { app := { f with acceptor := none, initiator := none }
      engineStopInvoked := f.acceptor.isSome || f.initiator.isSome }

/-- `Start` iterated `n` times, with `errs i` the engine start error at the
`i`-th call; the returned error is discarded each time, as a caller that
ignores it would. -/
def iterStart (errs : Nat → Option Err) : Fixapp → Nat → Fixapp
  | f, 0 => f
  | f, n + 1 => iterStart errs ((f.Start (errs n)).app) n

/-- `Stop` iterated `k` times, counting how many of those calls invoked the
underlying engine's stop operation. -/
def iterStop : Fixapp → Nat → Fixapp × Nat
  | f, 0 => (f, 0)
  | f, k + 1 =>
    let out := f.Stop
    let rest := iterStop out.app k
    (rest.1, (if out.engineStopInvoked then 1 else 0) + rest.2)

/-- `quickfix.Settings` as far as this code inspects it: the external parser
yields per-session settings, a map from session id to key/value pairs
(`settings.SessionSettings()`). -/
structure SessionSettings where
  entries : List (String × String)
  deriving DecidableEq, Repr

/-- `(s *SessionSettings) HasSetting(key)` of the external library. -/
def SessionSettings.HasSetting (s : SessionSettings) (key : String) : Bool :=
  (s.entries.lookup key).isSome

/-- `(s *SessionSettings) Setting(key)` of the external library: the value,
or an error when the key is absent. -/
def SessionSettings.Setting (s : SessionSettings) (key : String) : Except Err String :=
  match s.entries.lookup key with
  | some v => Except.ok v
  | none => Except.error "setting not found"

structure Settings where
  sessionSettings : List (String × SessionSettings)
  deriving DecidableEq, Repr

/-- External collaborators, as the code observes them.  `openFile` models
`os.Open` followed by `io.ReadAll`: an open error, or the bytes read together
with the read error `io.ReadAll` reported (nil when the read completed).
`hash` models the SHA-256 primitive, `parseSettings` the external
`quickfix.ParseSettings` (reading the same file stream, hence seeing both the
bytes and any read error), `newLogFactoryFile` the fallible
`filelog.NewLogFactory`, and `newAcceptor` / `newInitiator` the engine
constructors (an error, or nil on success). -/
structure Env where
  openFile : String → Except Err (Bytes × Option Err)
  hash : Bytes → Bytes
  parseSettings : Bytes → Option Err → Except Err Settings
  newLogFactoryFile : Settings → Option Err
  newAcceptor : Settings → Option Err
  newInitiator : Settings → Option Err
  parseDataDictionary : String → Except Err Nat
  toJSON : Option Nat → Option Nat → String

/-- `func createChecksum(configPath string) ([]byte, error)`
(fixapp.go:165-176).  Note: the error `io.ReadAll` returns is assigned to
`err` but never checked; the hash of whatever bytes were read is returned
with a nil error. -/
def createChecksum (env : Env) (configPath : String) : Except Err Bytes :=
  match env.openFile configPath with
  | Except.error e => Except.error ("failed to open config file: " ++ e)
  | Except.ok (t, _readErr) => Except.ok (env.hash t)

/-- `func GetSettings(configFile string) (*quickfix.Settings, error)`
(fixapp.go:58-73).  `filepath.Abs` is modelled as the identity on paths. -/
def GetSettings (env : Env) (configFile : String) : Except Err Settings :=
  match env.openFile configFile with
  | Except.error e => Except.error ("failed to open config file: " ++ e)
  | Except.ok (t, readErr) =>
    match env.parseSettings t readErr with
    | Except.error e => Except.error ("failed to parse settings: " ++ e)
    | Except.ok s => Except.ok s

/-- `func createMessageStoreFactory` (fixapp.go:178-187).  Both the memory
and the file store constructors are infallible in the external library. -/
def createMessageStoreFactory (t : String) (_s : Settings) : Except Err Unit :=
  if t = "memory" then Except.ok ()
  else if t = "file" then Except.ok ()
  else Except.error ("cannot create message store of type " ++ t)

/-- `func createLogFactory` (fixapp.go:189-199). -/
def createLogFactory (env : Env) (t : String) (s : Settings) : Except Err Unit :=
  if t = "file" then
    match env.newLogFactoryFile s with
    | none => Except.ok ()
    | some e => Except.error e
  else if t = "screen" then Except.ok ()
  else Except.error ("cannot create logger of type " ++ t)

/-- The process-wide registry `fixappstore map[string]*fixapp`
(fixapp.go:17-20).  Go's `*fixapp` pointers are modelled as ids into a heap,
so that handle identity (pointer equality) is observable. -/
structure RegistryState where
  entries : List (Bytes × Nat)
  heap : List (Nat × Fixapp)
  nextId : Nat
  deriving DecidableEq, Repr

def RegistryState.empty : RegistryState :=
  { entries := [], heap := [], nextId := 0 }

def RegistryState.setHandle (reg : RegistryState) (id : Nat) (f : Fixapp) :
    RegistryState :=
  { reg with heap := (id, f) :: reg.heap }

/-- `func GetOrCreateFixApp(appType, msgStore, logType, app, configFile)`
(fixapp.go:75-124).  Returns the id of the handle (pointer identity) and the
registry after the call.  The `app quickfix.Application` argument only flows
to the engine constructors and is dropped here.  The `switch appType` has no
default case: an unknown `appType` leaves both engine pointers nil and `err`
nil, and the handle is still inserted. -/
def GetOrCreateFixApp (env : Env) (reg : RegistryState)
    (appType msgStore logType : String) (configFile : String) :
    Except Err (Nat × RegistryState) :=
  match createChecksum env configFile with
  | Except.error e => Except.error e
  | Except.ok chk =>
    match reg.entries.lookup chk with
    | some id => Except.ok (id, reg)
    | none =>
      match GetSettings env configFile with
      | Except.error e => Except.error e
      | Except.ok s =>
        match createMessageStoreFactory msgStore s with
        | Except.error e => Except.error e
        | Except.ok _ =>
          match createLogFactory env logType s with
          | Except.error e => Except.error e
          | Except.ok _ =>
            let engines : Except Err (Option Unit × Option Unit) :=
              if appType = "acceptor" then
                match env.newAcceptor s with
                | none => Except.ok (some (), none)
                | some e => Except.error e
              else if appType = "initiator" then
                match env.newInitiator s with
                | none => Except.ok (none, some ())
                | some e => Except.error e
              else Except.ok (none, none)
            match engines with
            | Except.error e => Except.error e
            | Except.ok (acc, ini) =>
              let f : Fixapp :=
                { chksum := chk, acceptor := acc, initiator := ini
                  state := FixappState.stopped, refcount := 0 }
              let id := reg.nextId
              Except.ok (id,
                { entries := (chk, id) :: reg.entries
                  heap := (id, f) :: reg.heap
                  nextId := reg.nextId + 1 })

/-- `quickfix.SessionID`, modelled by its string rendering; the zero value
renders as the empty string. -/
abbrev SessionID := String

/-- Pointer to a parsed `datadictionary.DataDictionary` (an id, since only
identity and presence matter here). -/
abbrev Dict := Nat

/-- The seven `quickfixEventType` constants (input.go:35-43). -/
def createEvent : String := "create"

def logonEvent : String := "logon"

def logoutEvent : String := "logout"

def toAdminEvent : String := "to_admin"

def toAppEvent : String := "to_app"

def fromAdminEvent : String := "from_admin"

def fromAppEvent : String := "from_app"

/-- A `*quickfix.Message` pointer. -/
structure MessagePtr where
  addr : Nat
  deriving DecidableEq, Repr

/-- The heap of engine messages: the next fresh address and the message data
(abstracted to a string) stored at each allocated address. -/
structure MsgHeap where
  next : Nat
  contents : List (Nat × String)
  deriving DecidableEq, Repr

/-- Dereference a message pointer (most recent write wins). -/
def MsgHeap.read (h : MsgHeap) (p : MessagePtr) : String :=
  (h.contents.lookup p.addr).getD ""

/-- `quickfix.NewMessage()`: allocates a fresh, empty message. -/
def NewMessage (h : MsgHeap) : MessagePtr × MsgHeap :=
  (⟨h.next⟩, { next := h.next + 1, contents := (h.next, "") :: h.contents })

/-- `(m *quickfix.Message) CopyInto(to)`: overwrites `dst`'s data with an
independent copy of `src`'s data. -/
def CopyInto (h : MsgHeap) (src dst : MessagePtr) : MsgHeap :=
  { h with contents := (dst.addr, h.read src) :: h.contents }

/-- `type quickfixEvent struct` (input.go:45-49). -/
structure QuickfixEvent where
  sessionId : SessionID
  eventType : String
  message : Option MessagePtr
  deriving DecidableEq, Repr

/-- `func NewQuickfixEvent(id, t, message)` (input.go:51-61).  A non-nil
message is copied into a freshly allocated one.  The returned struct literal
sets only `eventType` and `message`: `sessionId` stays at its zero value and
the `id` parameter goes unused. -/
def NewQuickfixEvent (h : MsgHeap) (id : SessionID) (t : String)
    (message : Option MessagePtr) : QuickfixEvent × MsgHeap :=
  match message with
  | none => ({ sessionId := "", eventType := t, message := none }, h)
  | some m =>
    let alloc := NewMessage h
    let h2 := CopyInto alloc.2 m alloc.1
    ({ sessionId := "", eventType := t, message := some alloc.1 }, h2)

/-- The unbuffered Go channel `chan quickfixEvent`: `buffer` holds sends
whose engine-side sender is blocked awaiting the consumer, `closed` the
`close` flag. -/
structure EventChannel where
  buffer : List QuickfixEvent
  closed : Bool
  deriving DecidableEq, Repr

/-- `type quickfixInput struct` (input.go:19-31).  The two dictionary maps
and the event channel are nilable (`none` = Go nil). -/
structure QuickfixInput where
  appType : String
  storeType : String
  logType : String
  config : String
  settings : Settings
  appDictionaries : Option (List (SessionID × Dict))
  transportDictionaries : Option (List (SessionID × Dict))
  eventChan : Option EventChannel
  deriving DecidableEq, Repr

/-- `(p *service.ParsedConfig).FieldString(key)` of the framework: the value,
or an error when the field is absent. -/
def fieldString (conf : List (String × String)) (key : String) : Except Err String :=
  match conf.lookup key with
  | some v => Except.ok v
  | none => Except.error ("field not set: " ++ key)

/-- `func quickfixInputFromParsed(conf, nm)` (input.go:83-117).  The struct
literal at the end omits `appDictionaries`, `transportDictionaries` and
`eventChan`: both maps and the channel are left nil. -/
def quickfixInputFromParsed (env : Env) (conf : List (String × String)) :
    Except Err QuickfixInput :=
  match fieldString conf "application_type" with
  | Except.error e => Except.error e
  | Except.ok appType =>
  match fieldString conf "config_file" with
  | Except.error e => Except.error e
  | Except.ok configFile =>
  match fieldString conf "message_store_type" with
  | Except.error e => Except.error e
  | Except.ok storeType =>
  match fieldString conf "logger_type" with
  | Except.error e => Except.error e
  | Except.ok logType =>
  match GetSettings env configFile with
  | Except.error e => Except.error e
  | Except.ok settings =>
    Except.ok { appType := appType, storeType := storeType, logType := logType
                config := configFile, settings := settings
                appDictionaries := none, transportDictionaries := none
                eventChan := none }

structure ConnectOutcome where
  q : QuickfixInput
  reg : RegistryState
  err : Option Err
  deriving DecidableEq, Repr

/-- `func (q *quickfixInput) Connect(ctx)` (input.go:119-134).  A fresh open
channel is installed, then the handle's `Start` is invoked with its return
value discarded; `Connect` returns the `err` variable, which is nil once
`GetOrCreateFixApp` has succeeded.  `engineStartErr` is the error the
engine's own start operation would yield if invoked. -/
def QuickfixInput.Connect (env : Env) (engineStartErr : Option Err)
    (q : QuickfixInput) (reg : RegistryState) : ConnectOutcome :=
  match GetOrCreateFixApp env reg q.appType q.storeType q.logType q.config with
  | Except.error e => { q := q, reg := reg, err := some e }
  | Except.ok (id, reg1) =>
    let q1 := { q with eventChan := some { buffer := [], closed := false } }
    match reg1.heap.lookup id with
    | some f =>
      { q := q1, reg := reg1.setHandle id (f.Start engineStartErr).app, err := none }
    | none => { q := q1, reg := reg1, err := none }

/-- Rendering of a delivered event by `Read`: the message body and the
metadata entries set with `MetaSetMut`. -/
structure ProducedMessage where
  body : String
  meta : List (String × String)
  deriving DecidableEq, Repr

inductive ReadResult where
  | notConnected
  | endOfInput (q : QuickfixInput)
  | produced (m : ProducedMessage) (q : QuickfixInput)
  | ctxDone
  | blocked
  deriving DecidableEq, Repr

/-- `func (q *quickfixInput) Read(ctx)` (input.go:136-164).  The `select`
race is resolved in favour of a deliverable event when one is pending;
`ctxCancelled` models `ctx.Done()` being ready.  The dictionary lookup
`q.appDictionaries[msg.sessionId]` on a nil map yields the zero value (no
dictionary), as in Go. -/
def QuickfixInput.Read (env : Env) (ctxCancelled : Bool) (q : QuickfixInput) :
    ReadResult :=
  match q.eventChan with
  | none => ReadResult.notConnected
  | some ch =>
    match ch.buffer with
    | m :: rest =>
      let dict : Option Dict :=
        match q.appDictionaries with
        | none => none
        | some d => d.lookup m.sessionId
      let q1 := { q with eventChan := some { ch with buffer := rest } }
      ReadResult.produced
        { body := env.toJSON (m.message.map MessagePtr.addr) dict
          meta := [("quickfix_session_id", m.sessionId), ("quickfix_event", m.eventType)] }
        q1
    | [] =>
      if ch.closed then ReadResult.endOfInput { q with eventChan := none }
      else if ctxCancelled then ReadResult.ctxDone
      else ReadResult.blocked

/-- The two externally visible teardown effects of `Close`, in order. -/
inductive CloseOp where
  | closeChannel
  | stopEngine
  deriving DecidableEq, Repr

structure CloseOutcome where
  q : QuickfixInput
  reg : RegistryState
  err : Option Err
  trace : List CloseOp
  deriving DecidableEq, Repr

/-- `func (q *quickfixInput) Close(ctx)` (input.go:166-180).  The event
channel is closed first; only then is the handle looked up again and its
`Stop` invoked.  `trace` records the order of the two teardown effects.
`close` of a nil channel is a Go runtime fault, surfaced as `Except.error`. -/
def QuickfixInput.Close (env : Env) (q : QuickfixInput) (reg : RegistryState) :
    Except Err CloseOutcome :=
  match q.eventChan with
  | none => Except.error "close of nil channel"
  | some ch =>
    let q1 := { q with eventChan := some { ch with closed := true } }
    match GetOrCreateFixApp env reg q.appType q.storeType q.logType q.config with
    | Except.error e =>
      Except.ok { q := q1, reg := reg, err := some e, trace := [CloseOp.closeChannel] }
    | Except.ok (id, reg1) =>
      match reg1.heap.lookup id with
      | some f =>
        Except.ok { q := q1, reg := reg1.setHandle id (f.Stop).app, err := none
                    trace := [CloseOp.closeChannel, CloseOp.stopEngine] }
      | none =>
        Except.ok { q := q1, reg := reg1, err := none, trace := [CloseOp.closeChannel] }

/-- Outcome of a callback's channel send `q.eventChan <- event`: delivered
when the channel exists and is open; a send on a nil channel blocks the
engine worker forever, and a send on a closed channel is a Go runtime
fault. -/
inductive SendResult where
  | delivered (q : QuickfixInput)
  | blocksForever
  | panicClosedChannel
  deriving DecidableEq, Repr

def sendEvent (q : QuickfixInput) (e : QuickfixEvent) : SendResult :=
  match q.eventChan with
  | none => SendResult.blocksForever
  | some ch =>
    if ch.closed then SendResult.panicClosedChannel
    else SendResult.delivered
      { q with eventChan := some { ch with buffer := ch.buffer ++ [e] } }

/-- `func (q *quickfixInput) OnLogon(sessionID)` (input.go:209-213). -/
def QuickfixInput.OnLogon (h : MsgHeap) (q : QuickfixInput)
    (sessionID : SessionID) : SendResult × MsgHeap :=
  let ev := NewQuickfixEvent h sessionID logonEvent none
  (sendEvent q ev.1, ev.2)

/-- Outcome of a Go statement sequence that may fault at runtime. -/
inductive GoStep (α : Type) where
  | ok (a : α)
  | panic (msg : String)
  deriving DecidableEq, Repr

/-- Assignment `m[k] = v` on a possibly-nil Go map: assigning into a nil map
is a runtime fault. -/
def mapAssign (m : Option (List (SessionID × Dict))) (k : SessionID) (v : Dict) :
    GoStep (Option (List (SessionID × Dict))) :=
  match m with
  | none => GoStep.panic "assignment to entry in nil map"
  | some l => GoStep.ok (some ((k, v) :: l))

/-- `func (q *quickfixInput) OnCreate(sessionID)` (input.go:182-207).
`q.settings.SessionSettings()[sessionID]` is a Go map lookup whose miss
yields a nil `*SessionSettings`, on which `HasSetting` would fault.  A
successfully parsed dictionary is assigned into the (possibly nil)
dictionary maps; parse failures are silently skipped.  Finally the create
event is sent on the channel. -/
def QuickfixInput.OnCreate (env : Env) (h : MsgHeap) (q : QuickfixInput)
    (sessionID : SessionID) : GoStep (SendResult × MsgHeap) :=
  match q.settings.sessionSettings.lookup sessionID with
  | none => GoStep.panic "nil pointer dereference"
  | some session =>
    let afterApp : GoStep QuickfixInput :=
      if session.HasSetting "DataDictionary" then
        match session.Setting "DataDictionary" with
        | Except.error _ => GoStep.ok q
        | Except.ok file =>
          match env.parseDataDictionary file with
          | Except.error _ => GoStep.ok q
          | Except.ok dict =>
            match mapAssign q.appDictionaries sessionID dict with
            | GoStep.panic m => GoStep.panic m
            | GoStep.ok app1 =>
              match mapAssign q.transportDictionaries sessionID dict with
              | GoStep.panic m => GoStep.panic m
              | GoStep.ok tr1 =>
                GoStep.ok { q with appDictionaries := app1
                                   transportDictionaries := tr1 }
      else GoStep.ok q
    match afterApp with
    | GoStep.panic m => GoStep.panic m
    | GoStep.ok q1 =>
      let afterTransport : GoStep QuickfixInput :=
        if session.HasSetting "TransportDataDictionary" then
          match session.Setting "TransportDataDictionary" with
          | Except.error _ => GoStep.ok q1
          | Except.ok file =>
            match env.parseDataDictionary file with
            | Except.error _ => GoStep.ok q1
            | Except.ok dict =>
              match mapAssign q1.transportDictionaries sessionID dict with
              | GoStep.panic m => GoStep.panic m
              | GoStep.ok tr2 => GoStep.ok { q1 with transportDictionaries := tr2 }
          else GoStep.ok q1
      match afterTransport with
      | GoStep.panic m => GoStep.panic m
      | GoStep.ok q2 =>
        let ev := NewQuickfixEvent h sessionID createEvent none
        GoStep.ok (sendEvent q2 ev.1, ev.2)

/-- A started handle holding an acceptor with `refcount = 1`: the state C1
examines (`state = Started`, `refcount ≤ 1`). -/
def c1Handle : Fixapp :=
  { chksum := [], acceptor := some (), initiator := none
    state := FixappState.started, refcount := 1 }

/-- A handle in the `Stopped` state with an acceptor present, as left by
`GetOrCreateFixApp`, used to exercise the failure branch of `Start`. -/
def stoppedAcceptorHandle : Fixapp :=
  { chksum := [], acceptor := some (), initiator := none
    state := FixappState.stopped, refcount := 0 }

/-- Settings with no sessions. -/
def emptySettings : Settings := { sessionSettings := [] }

/-- An environment in which every external operation succeeds: each config
file holds the bytes `[1, 2, 3]`, hashing is the identity, parsing yields
empty settings, and the engine constructors succeed. -/
def envA : Env :=
  { openFile := fun _ => Except.ok ([1, 2, 3], none)
    hash := fun b => b
    parseSettings := fun _ _ => Except.ok emptySettings
    newLogFactoryFile := fun _ => none
    newAcceptor := fun _ => none
    newInitiator := fun _ => none
    parseDataDictionary := fun _ => Except.ok 0
    toJSON := fun _ _ => "rendered" }

/-- Like `envA` but the file open succeeds while the subsequent read fails
after zero bytes. -/
def envReadFail : Env :=
  { envA with openFile := fun _ => Except.ok ([], some "read failed") }

/-- Settings declaring one session `"S1"` with a `DataDictionary`. -/
def s1DictSettings : Settings :=
  { sessionSettings := [("S1", { entries := [("DataDictionary", "FIX44.xml")] })] }

/-- Like `envA` but parsing yields `s1DictSettings`. -/
def envDict : Env :=
  { envA with parseSettings := fun _ _ => Except.ok s1DictSettings }

/-- Parsed-config fields: an acceptor with memory store and screen log,
reading config file `"cfg"`. -/
def confA : List (String × String) :=
  [("application_type", "acceptor"), ("config_file", "cfg"),
   ("message_store_type", "memory"), ("logger_type", "screen")]

/-- The handle `GetOrCreateFixApp` creates under `envA`. -/
def freshCfgHandle : Fixapp :=
  { chksum := [1, 2, 3], acceptor := some (), initiator := none
    state := FixappState.stopped, refcount := 0 }

/-- The registry after the first `GetOrCreateFixApp` call under `envA`. -/
def regAfterFirstCall : RegistryState :=
  { entries := [([1, 2, 3], 0)], heap := [(0, freshCfgHandle)], nextId := 1 }

/-- The adapter as built by `quickfixInputFromParsed envA confA`. -/
def parsedInput : QuickfixInput :=
  { appType := "acceptor", storeType := "memory", logType := "screen"
    config := "cfg", settings := emptySettings
    appDictionaries := none, transportDictionaries := none, eventChan := none }

/-- `parsedInput` after `Connect`: channel allocated, open and empty. -/
def connectedInput : QuickfixInput :=
  { parsedInput with eventChan := some { buffer := [], closed := false } }

/-- The registry after `Connect`: the handle was created and then started
(the updated handle shadows the original in the heap). -/
def regAfterConnect : RegistryState :=
  regAfterFirstCall.setHandle 0 (freshCfgHandle.Start none).app

/-- The event built by `OnLogon "S1"`: kind `logon`, zero-value session id. -/
def logonS1Event : QuickfixEvent :=
  { sessionId := "", eventType := logonEvent, message := none }

/-- `connectedInput` once the logon callback has delivered its event. -/
def inputWithLogonPending : QuickfixInput :=
  { parsedInput with eventChan := some { buffer := [logonS1Event], closed := false } }

/-- An empty message heap. -/
def emptyHeap : MsgHeap := { next := 0, contents := [] }

/-- The parsed adapter under `envDict` (session `"S1"` declares a
dictionary). -/
def parsedDictInput : QuickfixInput :=
  { parsedInput with settings := s1DictSettings }

/-- The handle created when the config read failed (checksum of the empty
byte string). -/
def readFailHandle : Fixapp :=
  { chksum := [], acceptor := some (), initiator := none
    state := FixappState.stopped, refcount := 0 }

/-- The registry after a `GetOrCreateFixApp` call under `envReadFail`. -/
def regAfterReadFailCall : RegistryState :=
  { entries := [([], 0)], heap := [(0, readFailHandle)], nextId := 1 }

/-- A heap holding one engine-owned message at address 0. -/
def oneMsgHeap : MsgHeap := { next := 1, contents := [(0, "8=FIX.4.4;35=A")] }

theorem start_when_started (f : Fixapp) (e : Option Err)
    (h : f.state = FixappState.started) :
    (f.Start e).app = { f with refcount := f.refcount + 1 } := by
  simp [Fixapp.Start, h]

theorem iterStart_when_started (errs : Nat → Option Err) :
    ∀ (n : Nat) (f : Fixapp), f.state = FixappState.started →
      iterStart errs f n = { f with refcount := f.refcount + n } := by
  intro n
  induction n with
  | zero => intro f h; simp [iterStart]
  | succ n ih =>
    intro f h
    rw [iterStart, start_when_started f _ h,
      ih { f with refcount := f.refcount + 1 } h]
    congr 1
    push_cast
    ring

theorem iterStart_from_stopped (errs : Nat → Option Err) (n : Nat) (f : Fixapp)
    (h : f.state = FixappState.stopped) :
    iterStart errs f (n + 1) =
      { f with state := FixappState.started, refcount := f.refcount + (n + 1) } := by
  have hstep : (f.Start (errs n)).app =
      { f with state := FixappState.started, refcount := f.refcount + 1 } := by
    simp [Fixapp.Start, h]
  rw [iterStart, hstep, iterStart_when_started errs n _ rfl]
  congr 1
  push_cast
  ring

theorem iterStop_while_refcount_above_one :
    ∀ (k : Nat) (f : Fixapp), f.state = FixappState.started →
      f.refcount = (k : Int) + 1 →
      iterStop f k = ({ f with refcount := 1 }, 0) := by
  intro k
  induction k with
  | zero =>
    intro f h hrc
    have hf : ({ f with refcount := 1 } : Fixapp) = f := by
      cases f
      simp_all
    simp [iterStop, hf]
  | succ k ih =>
    intro f h hrc
    have hgt : f.refcount > 1 := by rw [hrc]; push_cast; omega
    have hstop : f.Stop =
        { app := { f with refcount := f.refcount - 1 }, engineStopInvoked := false } := by
      simp only [Fixapp.Stop]
      rw [if_pos (Or.inr hgt)]
    have hrec : iterStop ({ f with refcount := f.refcount - 1 } : Fixapp) k =
        ({ f with refcount := 1 }, 0) := by
      have hk : ({ f with refcount := f.refcount - 1 } : Fixapp).refcount = (k : Int) + 1 := by
        simp only []
        rw [hrc]
        push_cast
        ring
      exact ih { f with refcount := f.refcount - 1 } h hk
    simp [iterStop, hstop, hrec]

end Bento

namespace Bento

/-- C1: the claim says `Stop` on a started handle with `refcount ≤ 1` stops
the engine, clears the reference, returns the handle to `Stopped` and leaves
`refcount` at 0.  Evaluating `Stop` at such a handle shows the code stops the
engine and clears the reference, but leaves `state = started` and
`refcount = 1`: the final-stop branch of `fixapp.Stop` never resets `state`
or decrements `refcount`. -/
theorem c1_stop_leaves_started_refcount_one :
    (c1Handle.Stop).engineStopInvoked = true ∧
    (c1Handle.Stop).app.acceptor = none ∧
    (c1Handle.Stop).app.initiator = none ∧
    (c1Handle.Stop).app.state = FixappState.started ∧
    (c1Handle.Stop).app.refcount = 1 := by
  decide

/-- C2: starting from a fresh handle (`Stopped`, `refcount = 0`, engine
present), calling `Start` N times (N ≥ 1, whatever the engine start errors
are) leaves `refcount = N`; the first N−1 `Stop` calls never invoke the
underlying engine's stop operation, and the Nth `Stop` call does. -/
theorem c2_refcount_and_stop_invocations (N : Nat) (hN : 1 ≤ N)
    (errs : Nat → Option Err) (f0 : Fixapp)
    (hstate : f0.state = FixappState.stopped) (hrc : f0.refcount = 0)
    (heng : (f0.acceptor.isSome || f0.initiator.isSome) = true) :
    (iterStart errs f0 N).refcount = N ∧
    (iterStop (iterStart errs f0 N) (N - 1)).2 = 0 ∧
    ((iterStop (iterStart errs f0 N) (N - 1)).1.Stop).engineStopInvoked = true := by
  obtain ⟨m, rfl⟩ : ∃ m, N = m + 1 := ⟨N - 1, by omega⟩
  have hstep := iterStart_from_stopped errs m f0 hstate
  have hstate2 : (iterStart errs f0 (m + 1)).state = FixappState.started := by
    rw [hstep]
  have hrc2 : (iterStart errs f0 (m + 1)).refcount = (m : Int) + 1 := by
    rw [hstep]
    simp [hrc]
  have hiter := iterStop_while_refcount_above_one m _ hstate2 hrc2
  refine ⟨?_, ?_, ?_⟩
  · rw [hstep]
    simp [hrc]
  · rw [Nat.add_sub_cancel, hiter]
  · rw [Nat.add_sub_cancel, hiter]
    simp [Fixapp.Stop, hstate2, hstep, heng]

theorem c2_refcount_and_stop_invocations_witness :
    1 ≤ 2 ∧
    ((iterStart (fun _ => none) stoppedAcceptorHandle 2).refcount = 2 ∧
     (iterStop (iterStart (fun _ => none) stoppedAcceptorHandle 2) (2 - 1)).2 = 0 ∧
     ((iterStop (iterStart (fun _ => none) stoppedAcceptorHandle 2)
        (2 - 1)).1.Stop).engineStopInvoked = true) :=
  ⟨by decide,
   c2_refcount_and_stop_invocations 2 (by decide) (fun _ => none)
     stoppedAcceptorHandle rfl rfl rfl⟩

/-- C3: every `Start` call increments `refcount`, transition or not; and when
the engine's start operation fails (handle not yet started, engine present),
the handle is still marked `Started`, `refcount` is still incremented, and
the engine's error is returned to the caller. -/
theorem c3_start_increments_and_error_path :
    (∀ (f : Fixapp) (e : Option Err), (f.Start e).app.refcount = f.refcount + 1) ∧
    (∀ (f : Fixapp) (msg : Err), f.state ≠ FixappState.started →
      (f.acceptor.isSome || f.initiator.isSome) = true →
      (f.Start (some msg)).err = some msg ∧
      (f.Start (some msg)).app.state = FixappState.started ∧
      (f.Start (some msg)).app.refcount = f.refcount + 1) := by
  constructor
  · intro f e
    by_cases hs : f.state = FixappState.started <;> simp [Fixapp.Start, hs]
  · intro f msg h1 h2
    have herr : (if f.acceptor.isSome then some msg
        else if f.initiator.isSome then some msg
        else some "cannot start uninitialized fixapp") = some msg := by
      cases ha : f.acceptor.isSome with
      | true => simp
      | false =>
        rw [ha] at h2
        simp at h2
        simp [h2]
    simp [Fixapp.Start, h1, herr]

/-- C4: once a registry entry for a checksum exists it is returned
unconditionally, whatever role / store kind / log kind the second call asks
for; hence two `GetOrCreateFixApp` calls over byte-identical configuration
content return the same handle (same pointer id) and the second call leaves
the registry untouched. -/
theorem c4_identical_content_shares_handle (env : Env) (reg : RegistryState)
    (p1 p2 : String) (c : Bytes) (r1 r2 : Option Err)
    (a1 m1 l1 a2 m2 l2 : String) (id1 : Nat) (reg1 : RegistryState)
    (h1 : env.openFile p1 = Except.ok (c, r1))
    (h2 : env.openFile p2 = Except.ok (c, r2))
    (hcall : GetOrCreateFixApp env reg a1 m1 l1 p1 = Except.ok (id1, reg1)) :
    GetOrCreateFixApp env reg1 a2 m2 l2 p2 = Except.ok (id1, reg1) := by
  have hc1 : createChecksum env p1 = Except.ok (env.hash c) := by
    simp [createChecksum, h1]
  have hc2 : createChecksum env p2 = Except.ok (env.hash c) := by
    simp [createChecksum, h2]
  have hlook1 : reg1.entries.lookup (env.hash c) = some id1 := by
    simp only [GetOrCreateFixApp, hc1] at hcall
    cases hlook : reg.entries.lookup (env.hash c) with
    | some id =>
      simp only [hlook] at hcall
      simp at hcall
      obtain ⟨rfl, rfl⟩ := hcall
      exact hlook
    | none =>
      simp only [hlook] at hcall
      split at hcall
      · exact absurd hcall (by simp)
      · split at hcall
        · exact absurd hcall (by simp)
        · split at hcall
          · exact absurd hcall (by simp)
          · split at hcall
            · exact absurd hcall (by simp)
            · simp at hcall
              obtain ⟨rfl, rfl⟩ := hcall
              simp [List.lookup]
  simp only [GetOrCreateFixApp, hc2, hlook1]

theorem c4_identical_content_shares_handle_witness :
    envA.openFile "a.cfg" = Except.ok ([1, 2, 3], none) ∧
    envA.openFile "b.cfg" = Except.ok ([1, 2, 3], none) ∧
    GetOrCreateFixApp envA RegistryState.empty "acceptor" "memory" "screen" "a.cfg" =
      Except.ok (0, regAfterFirstCall) ∧
    GetOrCreateFixApp envA regAfterFirstCall "initiator" "file" "file" "b.cfg" =
      Except.ok (0, regAfterFirstCall) :=
  ⟨rfl, rfl, by decide,
   c4_identical_content_shares_handle envA RegistryState.empty "a.cfg" "b.cfg"
     [1, 2, 3] none none "acceptor" "memory" "screen" "initiator" "file" "file"
     0 regAfterFirstCall rfl rfl (by decide)⟩

/-- C5: after `Connect` and a logon callback for session `"S1"`, the next
`Read` does return a message whose metadata reports event kind `logon` — but
the session-id metadata carries the zero-value session id, not `"S1"`,
because `NewQuickfixEvent` never stores its `id` argument. -/
theorem c5_read_after_logon_loses_session_id :
    quickfixInputFromParsed envA confA = Except.ok parsedInput ∧
    QuickfixInput.Connect envA none parsedInput RegistryState.empty =
      { q := connectedInput, reg := regAfterConnect, err := none } ∧
    QuickfixInput.OnLogon emptyHeap connectedInput "S1" =
      (SendResult.delivered inputWithLogonPending, emptyHeap) ∧
    QuickfixInput.Read envA false inputWithLogonPending =
      ReadResult.produced
        { body := "rendered"
          meta := [("quickfix_session_id", ""), ("quickfix_event", "logon")] }
        connectedInput ∧
    [("quickfix_session_id", ""), ("quickfix_event", "logon")].lookup
      "quickfix_session_id" ≠ some "S1" := by
  refine ⟨by decide, by decide, by decide, by decide, by decide⟩

/-- C6: the claim requires every `Close` to stop the engine before closing
the event channel.  Evaluating `Close` on a connected adapter shows the code
performs the teardown effects in the opposite order: it closes the channel
first and stops the engine afterwards. -/
theorem c6_close_channel_closed_before_engine_stop :
    (QuickfixInput.Close envA connectedInput regAfterConnect).map
      CloseOutcome.trace =
      Except.ok [CloseOp.closeChannel, CloseOp.stopEngine] := by
  decide

/-- C7: the claim says any I/O failure while reading the config bytes fails
the call with no registry mutation.  But `createChecksum` never checks the
error `io.ReadAll` reported: with a file whose open succeeds and whose read
fails, the call succeeds (hashing the partial bytes) and still inserts a
registry entry. -/
theorem c7_read_failure_swallowed_registry_mutated :
    envReadFail.openFile "cfg" = Except.ok ([], some "read failed") ∧
    createChecksum envReadFail "cfg" = Except.ok [] ∧
    GetOrCreateFixApp envReadFail RegistryState.empty
      "acceptor" "memory" "screen" "cfg" =
      Except.ok (0, regAfterReadFailCall) ∧
    regAfterReadFailCall.entries ≠ RegistryState.empty.entries := by
  refine ⟨rfl, rfl, by decide, by decide⟩

/-- C8: for a non-nil message parameter (an allocated engine message), the
event's payload is a freshly allocated message — its address is the heap's
next free one, distinct from the engine's message — holding a copy of the
original's data. -/
theorem c8_payload_is_fresh_copy (h : MsgHeap) (id : SessionID) (t : String)
    (p : MessagePtr) (hp : p.addr < h.next) :
    (NewQuickfixEvent h id t (some p)).1.message = some ⟨h.next⟩ ∧
    h.next ≠ p.addr ∧
    MsgHeap.read (NewQuickfixEvent h id t (some p)).2 ⟨h.next⟩ = MsgHeap.read h p := by
  refine ⟨rfl, by omega, ?_⟩
  have hne : (p.addr == h.next) = false := by
    simp
    omega
  simp [NewQuickfixEvent, NewMessage, CopyInto, MsgHeap.read, List.lookup, hne]

theorem c8_payload_is_fresh_copy_witness :
    (⟨0⟩ : MessagePtr).addr < oneMsgHeap.next ∧
    ((NewQuickfixEvent oneMsgHeap "S1" toAppEvent (some ⟨0⟩)).1.message =
        some ⟨oneMsgHeap.next⟩ ∧
      oneMsgHeap.next ≠ (⟨0⟩ : MessagePtr).addr ∧
      MsgHeap.read (NewQuickfixEvent oneMsgHeap "S1" toAppEvent (some ⟨0⟩)).2
        ⟨oneMsgHeap.next⟩ = MsgHeap.read oneMsgHeap ⟨0⟩) :=
  ⟨by decide, c8_payload_is_fresh_copy oneMsgHeap "S1" toAppEvent ⟨0⟩ (by decide)⟩

/-- C9: whenever obtaining the handle succeeds, `Connect` returns nil even
when the handle's `Start` fails: the result of the `fixapp.Start()` call
inside `Connect` is discarded. -/
theorem c9_connect_returns_nil_despite_start_error (env : Env)
    (q : QuickfixInput) (reg : RegistryState) (e : Err) (id : Nat)
    (reg1 : RegistryState)
    (hcall : GetOrCreateFixApp env reg q.appType q.storeType q.logType q.config =
      Except.ok (id, reg1)) :
    (QuickfixInput.Connect env (some e) q reg).err = none := by
  simp only [QuickfixInput.Connect, hcall]
  cases hl : reg1.heap.lookup id <;> simp [hl]

theorem c9_connect_returns_nil_despite_start_error_witness :
    GetOrCreateFixApp envA RegistryState.empty parsedInput.appType
      parsedInput.storeType parsedInput.logType parsedInput.config =
      Except.ok (0, regAfterFirstCall) ∧
    (QuickfixInput.Connect envA (some "engine start failed") parsedInput
      RegistryState.empty).err = none :=
  ⟨by decide,
   c9_connect_returns_nil_despite_start_error envA parsedInput
     RegistryState.empty "engine start failed" 0 regAfterFirstCall (by decide)⟩

theorem fromParsed_maps_nil (env : Env) (conf : List (String × String))
    (q : QuickfixInput)
    (hq : quickfixInputFromParsed env conf = Except.ok q) :
    q.appDictionaries = none ∧ q.transportDictionaries = none := by
  simp only [quickfixInputFromParsed] at hq
  split at hq
  · exact absurd hq (by simp)
  · split at hq
    · exact absurd hq (by simp)
    · split at hq
      · exact absurd hq (by simp)
      · split at hq
        · exact absurd hq (by simp)
        · split at hq
          · exact absurd hq (by simp)
          · simp at hq
            subst hq
            exact ⟨rfl, rfl⟩

theorem connect_preserves_dictionaries (env : Env) (e : Option Err)
    (q : QuickfixInput) (reg : RegistryState) :
    (QuickfixInput.Connect env e q reg).q.appDictionaries = q.appDictionaries := by
  simp only [QuickfixInput.Connect]
  split
  · rfl
  · split <;> rfl

/-- C10: the dictionary maps are nil in the adapter the constructor builds,
and `Connect` never allocates them; hence for any session whose settings
declare a `DataDictionary` that parses successfully, `OnCreate`'s assignment
is a write to a nil map — a runtime fault. -/
theorem c10_oncreate_faults_on_nil_map (env : Env)
    (conf : List (String × String)) (q : QuickfixInput) (h : MsgHeap)
    (sessionID : SessionID) (session : SessionSettings) (file : String)
    (dict : Dict)
    (hq : quickfixInputFromParsed env conf = Except.ok q)
    (hsess : q.settings.sessionSettings.lookup sessionID = some session)
    (hset : session.entries.lookup "DataDictionary" = some file)
    (hdict : env.parseDataDictionary file = Except.ok dict) :
    q.appDictionaries = none ∧ q.transportDictionaries = none ∧
    (∀ (e : Option Err) (reg : RegistryState),
      (QuickfixInput.Connect env e q reg).q.appDictionaries = none) ∧
    QuickfixInput.OnCreate env h q sessionID =
      GoStep.panic "assignment to entry in nil map" := by
  obtain ⟨happ, htr⟩ := fromParsed_maps_nil env conf q hq
  refine ⟨happ, htr,
    fun e reg => by rw [connect_preserves_dictionaries, happ], ?_⟩
  have hhas : session.HasSetting "DataDictionary" = true := by
    simp [SessionSettings.HasSetting, hset]
  have hsetting : session.Setting "DataDictionary" = Except.ok file := by
    simp [SessionSettings.Setting, hset]
  simp only [QuickfixInput.OnCreate, hsess, hhas, hsetting, hdict, happ,
    mapAssign, if_true]

theorem c10_oncreate_faults_on_nil_map_witness :
    quickfixInputFromParsed envDict confA = Except.ok parsedDictInput ∧
    parsedDictInput.settings.sessionSettings.lookup "S1" =
      some { entries := [("DataDictionary", "FIX44.xml")] } ∧
    QuickfixInput.OnCreate envDict emptyHeap parsedDictInput "S1" =
      GoStep.panic "assignment to entry in nil map" :=
  ⟨by decide, by decide,
   (c10_oncreate_faults_on_nil_map envDict confA parsedDictInput emptyHeap
     "S1" { entries := [("DataDictionary", "FIX44.xml")] } "FIX44.xml" 0
     (by decide) (by decide) (by decide) (by decide)).2.2.2⟩

theorem c3_start_increments_and_error_path_witness :
    (stoppedAcceptorHandle.state ≠ FixappState.started) ∧
    ((stoppedAcceptorHandle.acceptor.isSome ||
      stoppedAcceptorHandle.initiator.isSome) = true) ∧
    ((stoppedAcceptorHandle.Start (some "engine refused")).err = some "engine refused" ∧
     (stoppedAcceptorHandle.Start (some "engine refused")).app.state = FixappState.started ∧
     (stoppedAcceptorHandle.Start (some "engine refused")).app.refcount =
       stoppedAcceptorHandle.refcount + 1) :=
  ⟨by decide, rfl,
   c3_start_increments_and_error_path.2 stoppedAcceptorHandle "engine refused"
     (by decide) rfl⟩

end Bento
